import Mathlib

/-!
Shallow embedding of the Toyota Home Assistant custom integration
(custom_components/toyota/__init__.py and custom_components/toyota/sensor.py).

Numeric telemetry values (distances, percentages) are modelled as rationals;
optional fields of the upstream client's models are Option; Python exceptions
raised by a projection function are modelled with Except.  The polling
orchestrator async_get_vehicle_data is modelled as a function of an
environment describing the outcome of each upstream call (a value, an
upstream error kind, or a hang, i.e. a call that never responds).
-/

namespace Toyota

/-- Statistics period, as in ToyotaStatisticsSensorEntityDescription.period. -/
inductive Period
  | day
  | week
  | month
  | year
deriving DecidableEq, Repr

/-- pytoyoda Summary model; only the distance field is read by this repository. -/
structure Summary where
  distance : Option ℚ
deriving DecidableEq, Repr

/-- StatisticsData TypedDict from custom_components/toyota/__init__.py. -/
structure StatisticsData where
  day : Option Summary
  week : Option Summary
  month : Option Summary
  year : Option Summary
deriving DecidableEq, Repr

/-- Dictionary lookup statistics[period]; the four keys are always present in a
constructed StatisticsData, so the lookup is total on the bundle itself. -/
def StatisticsData.get (s : StatisticsData) : Period → Option Summary
  | .day => s.day
  | .week => s.week
  | .month => s.month
  | .year => s.year

/-- The extended_capabilities flags read by sensor.py's getattr chains. -/
structure ExtendedCapabilities where
  telemetry_capable : Bool
  fuel_level_available : Bool
  fuel_range_available : Bool
  econnect_vehicle_status_capable : Bool
deriving DecidableEq, Repr

/-- Vehicle metadata object vehicle._vehicle_info; extended_capabilities may be
absent, in which case every capability getattr yields the default False. -/
structure VehicleInfo where
  extended_capabilities : Option ExtendedCapabilities
deriving DecidableEq, Repr

/-- Dashboard sub-object of a pytoyoda Vehicle; every field may be absent. -/
structure Dashboard where
  odometer : Option ℚ
  fuel_level : Option ℚ
  fuel_range : Option ℚ
  battery_level : Option ℚ
  battery_range : Option ℚ
  battery_range_with_ac : Option ℚ
  range : Option ℚ
deriving DecidableEq, Repr

/-- pytoyoda Vehicle model, restricted to the fields this repository reads. -/
structure Vehicle where
  vin : Option String
  vehicle_info : VehicleInfo
  dashboard : Option Dashboard
deriving DecidableEq, Repr

/-- VehicleData TypedDict from custom_components/toyota/__init__.py. -/
structure VehicleData where
  data : Vehicle
  statistics : Option StatisticsData
  metric_values : Bool
deriving DecidableEq, Repr

/-- Python round to the nearest integer, on the rational model of the numbers. -/
def pyRound (q : ℚ) : ℤ :=
  (q + 1/2).floor

/-- Modelled from the spec: utils.round_number (utils.py is not among the
sources); per the uniform null-safety policy of section 4.2 it returns absence
on an absent input and the rounded number otherwise. -/
def round_number (q : Option ℚ) : Option ℚ :=
  q.map (fun x => (pyRound x : ℚ))

/-- Python round(x, 1), used by ToyotaStatisticsSensor.native_value. -/
def round1 (q : ℚ) : ℚ :=
  (pyRound (q * 10) : ℚ) / 10

/-- The getattr(getattr(vehicle._vehicle_info, "extended_capabilities", False),
flag, False) chain of sensor.py: absent capabilities object means False. -/
def capFlag (v : Vehicle) (f : ExtendedCapabilities → Bool) : Bool :=
  match v.vehicle_info.extended_capabilities with
  | none => false
  | some c => f c

/-- Identifying keys of the twelve sensor entity descriptions of sensor.py. -/
inductive SensorKey
  | vin
  | odometer
  | fuel_level
  | fuel_range
  | battery_level
  | battery_range
  | battery_range_ac
  | total_range
  | current_day_statistics
  | current_week_statistics
  | current_month_statistics
  | current_year_statistics
deriving DecidableEq, Repr

/-- Whether a key belongs to one of the four statistics descriptors. -/
def SensorKey.isStatistics : SensorKey → Bool
  | .current_day_statistics => true
  | .current_week_statistics => true
  | .current_month_statistics => true
  | .current_year_statistics => true
  | _ => false

/-- The capabilities_descriptions list built per vehicle in
sensor.async_setup_entry: gating boolean paired with the descriptor key, in
source order. -/
def capabilities_descriptions (v : Vehicle) : List (Bool × SensorKey) :=
  [ (true, .vin),
    (capFlag v ExtendedCapabilities.telemetry_capable, .odometer),
    (capFlag v ExtendedCapabilities.fuel_level_available, .fuel_level),
    (capFlag v ExtendedCapabilities.fuel_range_available, .fuel_range),
    (capFlag v ExtendedCapabilities.econnect_vehicle_status_capable, .battery_level),
    (capFlag v ExtendedCapabilities.econnect_vehicle_status_capable, .battery_range),
    (capFlag v ExtendedCapabilities.econnect_vehicle_status_capable, .battery_range_ac),
    (capFlag v ExtendedCapabilities.econnect_vehicle_status_capable
      && capFlag v ExtendedCapabilities.fuel_range_available, .total_range),
    (true, .current_day_statistics),
    (true, .current_week_statistics),
    (true, .current_month_statistics),
    (true, .current_year_statistics) ]

/-- The descriptor keys actually instantiated for one vehicle: the comprehension
over capabilities_descriptions keeping the entries whose capability is truthy. -/
def projectVehicle (v : Vehicle) : List SensorKey :=
  ((capabilities_descriptions v).filter (fun p => p.1)).map (fun p => p.2)

/-- value_fn of the VIN descriptor. -/
def vin_value_fn (v : Vehicle) : Option String :=
  v.vin

/-- value_fn of the odometer descriptor. -/
def odometer_value_fn (v : Vehicle) : Option ℚ :=
  match v.dashboard with
  | none => none
  | some d => round_number d.odometer

/-- value_fn of the fuel level descriptor. -/
def fuel_level_value_fn (v : Vehicle) : Option ℚ :=
  match v.dashboard with
  | none => none
  | some d => round_number d.fuel_level

/-- value_fn of the fuel range descriptor. -/
def fuel_range_value_fn (v : Vehicle) : Option ℚ :=
  match v.dashboard with
  | none => none
  | some d => round_number d.fuel_range

/-- value_fn of the battery level descriptor. -/
def battery_level_value_fn (v : Vehicle) : Option ℚ :=
  match v.dashboard with
  | none => none
  | some d => round_number d.battery_level

/-- value_fn of the battery range descriptor. -/
def battery_range_value_fn (v : Vehicle) : Option ℚ :=
  match v.dashboard with
  | none => none
  | some d => round_number d.battery_range

/-- value_fn of the battery range with climate control descriptor. -/
def battery_range_ac_value_fn (v : Vehicle) : Option ℚ :=
  match v.dashboard with
  | none => none
  | some d => round_number d.battery_range_with_ac

/-- value_fn of the total range descriptor. -/
def total_range_value_fn (v : Vehicle) : Option ℚ :=
  match v.dashboard with
  | none => none
  | some d => round_number d.range

/-- Python runtime error raised by a projection function; subscripting None
with statistics[period] raises TypeError. -/
inductive PyErr
  | typeError
deriving DecidableEq, Repr

/-- ToyotaStatisticsSensor.native_value: data = self.statistics[self.period],
then round(data.distance, 1) if data and data.distance else None.  The base
entity's statistics accessor hands over the vehicle's Optional StatisticsData
from the live cycle result, so subscripting it when the bundle is absent
raises TypeError. -/
def statistics_native_value (stats : Option StatisticsData) (period : Period) :
    Except PyErr (Option ℚ) :=
  match stats with
  | none => .error .typeError
  | some st =>
    match st.get period with
    | none => .ok none
    | some data =>
      match data.distance with
      | none => .ok none
      | some d => if d = 0 then .ok none else .ok (some (round1 d))

/-- Modelled from the spec: utils.format_vin_sensor_attributes (utils.py is not
among the sources); an attribute map derived from the vehicle metadata, total
in its input. -/
structure VinAttrs where
  info : VehicleInfo
deriving DecidableEq, Repr

/-- attributes_fn of the VIN descriptor. -/
def vin_attributes_fn (v : Vehicle) : Option VinAttrs :=
  some ⟨v.vehicle_info⟩

/-- Modelled from the spec: utils.format_statistics_attributes (utils.py is not
among the sources); an attribute map derived from the period summary and the
vehicle metadata, total in its inputs. -/
structure StatAttrs where
  summary : Summary
  info : VehicleInfo
deriving DecidableEq, Repr

/-- ToyotaStatisticsSensor.extra_state_attributes: subscripts the Optional
bundle, then formats the summary if it is truthy, else None. -/
def statistics_extra_attributes (stats : Option StatisticsData) (info : VehicleInfo)
    (period : Period) : Except PyErr (Option StatAttrs) :=
  match stats with
  | none => .error .typeError
  | some st =>
    match st.get period with
    | none => .ok none
    | some data => .ok (some ⟨data, info⟩)

/-- Upstream error kinds that the except clauses of async_get_vehicle_data
distinguish (pytoyoda, httpx/httpcore, pydantic and asyncio exception kinds). -/
inductive UpstreamErr
  | loginError
  | internalError
  | apiError (msg : String)
  | connectTimeout
  | readTimeout
  | validationError
  | cancelled
  | timeoutError
deriving DecidableEq, Repr

/-- Outcome of awaiting one upstream call: a value, a raised upstream error,
or a call that never responds. -/
inductive CallResult (α : Type)
  | ok (a : α)
  | err (e : UpstreamErr)
  | hang
deriving DecidableEq, Repr

/-- One refresh cycle's upstream behaviour: the outcome of the listing call,
and per vehicle index the outcome of its status update and of each of the four
statistics calls. -/
structure Env where
  get_vehicles : CallResult (Option (List Vehicle))
  update : Nat → Vehicle → CallResult Vehicle
  get_current_day_summary : Nat → CallResult (Option Summary)
  get_current_week_summary : Nat → CallResult (Option Summary)
  get_current_month_summary : Nat → CallResult (Option Summary)
  get_current_year_summary : Nat → CallResult (Option Summary)

/-- asyncio.wait_for with the 15 second budget: a call that never responds is
turned into asyncio.TimeoutError when the deadline elapses; any other outcome
passes through. -/
def wait_for {α : Type} : CallResult α → CallResult α
  | .ok a => .ok a
  | .err e => .err e
  | .hang => .err .timeoutError

/-- First raised error among concurrently gathered calls, determinised to the
leftmost one. -/
def firstErr (l : List (CallResult (Option Summary))) : Option UpstreamErr :=
  l.findSome? (fun c =>
    match c with
    | .err e => some e
    | _ => none)

/-- asyncio.gather over the four statistics calls: raises as soon as any call
raises (even if others never respond), hangs if none raises but some call
never responds, and otherwise yields the four results. -/
def gather4 (a b c d : CallResult (Option Summary)) :
    CallResult (Option Summary × Option Summary × Option Summary × Option Summary) :=
  match firstErr [a, b, c, d] with
  | some e => .err e
  | none =>
    match a, b, c, d with
    | .ok x, .ok y, .ok z, .ok w => .ok (x, y, z, w)
    | _, _, _, _ => .hang

/-- Body of the per-vehicle iteration of async_get_vehicle_data: await
vehicle.update(), then, only when the updated vehicle's vin is not None,
gather the four statistics calls and fill the statistics entry. -/
def processVehicle (env : Env) (metric_values : Bool) (i : Nat) (v : Vehicle) :
    CallResult VehicleData :=
  match env.update i v with
  | .err e => .err e
  | .hang => .hang
  | .ok v2 =>
    match v2.vin with
    | none => .ok ⟨v2, none, metric_values⟩
    | some _ =>
      match gather4 (env.get_current_day_summary i) (env.get_current_week_summary i)
          (env.get_current_month_summary i) (env.get_current_year_summary i) with
      | .err e => .err e
      | .hang => .hang
      | .ok (d, w, m, y) => .ok ⟨v2, some ⟨d, w, m, y⟩, metric_values⟩

/-- The sequential for-loop over the listed vehicles, accumulating
vehicle_informations; any raised error or hang aborts the whole cycle. -/
def processAll (env : Env) (metric_values : Bool) :
    Nat → List Vehicle → CallResult (List VehicleData)
  | _, [] => .ok []
  | i, v :: rest =>
    match processVehicle env metric_values i v with
    | .err e => .err e
    | .hang => .hang
    | .ok d =>
      match processAll env metric_values (i + 1) rest with
      | .err e => .err e
      | .hang => .hang
      | .ok l => .ok (d :: l)

/-- The try-block body of async_get_vehicle_data: the 15 second wait_for wraps
only the listing call; an absent listing skips the loop and falls through to
return None; per-vehicle updates and statistics run outside the wait_for. -/
def runBody (env : Env) (metric_values : Bool) :
    CallResult (Option (List VehicleData)) :=
  match wait_for env.get_vehicles with
  | .err e => .err e
  | .hang => .hang
  | .ok none => .ok none
  | .ok (some vs) =>
    match processAll env metric_values 0 vs with
    | .err e => .err e
    | .hang => .hang
    | .ok l => .ok (some l)

/-- Message of the UpdateFailed raised on a connect timeout during refresh. -/
def connect_failed_message : String :=
  "Unable to connect to Toyota Connected Services"

/-- Message of the UpdateFailed raised on cancellation, overall timeout or
read timeout during refresh. -/
def api_too_slow_message : String :=
  "Update canceled! \nToyota\x27s API was too slow to respond. Will try again later."

/-- Outcome of one refresh cycle as seen by the caller: a returned value
(None meaning the cycle produced no new data), a raised UpdateFailed with its
message, or a refresh that never resolves. -/
inductive RefreshOutcome
  | result (r : Option (List VehicleData))
  | failed (message : String)
  | hang
deriving DecidableEq, Repr

/-- The except clauses of async_get_vehicle_data: login, internal and
validation errors are logged only and the function returns None; API errors,
connect timeouts and the cancellation/timeout/read-timeout group re-raise as
UpdateFailed with the corresponding message. -/
def handleErr : UpstreamErr → RefreshOutcome
  | .loginError => .result none
  | .internalError => .result none
  | .validationError => .result none
  | .apiError msg => .failed msg
  | .connectTimeout => .failed connect_failed_message
  | .readTimeout => .failed api_too_slow_message
  | .cancelled => .failed api_too_slow_message
  | .timeoutError => .failed api_too_slow_message

/-- The refresh method async_get_vehicle_data as a whole: run the try-block
body and translate any raised upstream error through the except clauses. -/
def async_get_vehicle_data (env : Env) (metric_values : Bool) : RefreshOutcome :=
  match runBody env metric_values with
  | .ok r => .result r
  | .err e => handleErr e
  | .hang => .hang

/-- Error kinds whose except clause re-raises UpdateFailed (the Retryable
tier), as opposed to the logged-only Silent tier. -/
def UpstreamErr.isRetryable : UpstreamErr → Bool
  | .apiError _ => true
  | .connectTimeout => true
  | .readTimeout => true
  | .cancelled => true
  | .timeoutError => true
  | .loginError => false
  | .internalError => false
  | .validationError => false

/-- Modelled from the spec: the host coordinator contract (the update
coordinator is host-framework code outside this repository).  A successful
cycle result replaces the published CycleResult; a cycle that yields no new
data (None), fails retryably, or never resolves leaves the previously
published CycleResult in place. -/
def publish (prev : Option (List VehicleData)) : RefreshOutcome → Option (List VehicleData)
  | .result (some l) => some l
  | .result none => prev
  | .failed _ => prev
  | .hang => prev

/-- Sample vehicle metadata without capability information. -/
def sampleInfo : VehicleInfo := ⟨none⟩

/-- Sample vehicle with a present vin and no dashboard. -/
def sampleVehicle : Vehicle := ⟨some "JTDKB20U", sampleInfo, none⟩

/-- Sample period summary with a positive distance. -/
def sampleSummary : Summary := ⟨some 5⟩

/-- Environment whose listing responds with one vehicle but whose per-vehicle
status update never responds. -/
def hangUpdateEnv : Env :=
  ⟨.ok (some [sampleVehicle]), fun _ _ => .hang,
   fun _ => .ok none, fun _ => .ok none, fun _ => .ok none, fun _ => .ok none⟩

/-- Environment whose listing call never responds. -/
def hangListingEnv : Env :=
  ⟨.hang, fun _ v => .ok v,
   fun _ => .ok none, fun _ => .ok none, fun _ => .ok none, fun _ => .ok none⟩

/-- Environment whose listing call raises an authentication error. -/
def loginErrEnv : Env :=
  ⟨.err .loginError, fun _ v => .ok v,
   fun _ => .ok none, fun _ => .ok none, fun _ => .ok none, fun _ => .ok none⟩

/-- Environment whose listing call raises a general API error. -/
def apiErrEnv : Env :=
  ⟨.err (.apiError "boom"), fun _ v => .ok v,
   fun _ => .ok none, fun _ => .ok none, fun _ => .ok none, fun _ => .ok none⟩

/-- Environment whose listing responds with None (absent list). -/
def absentListingEnv : Env :=
  ⟨.ok none, fun _ v => .ok v,
   fun _ => .ok none, fun _ => .ok none, fun _ => .ok none, fun _ => .ok none⟩

/-- Environment whose listing responds with the empty list. -/
def emptyListingEnv : Env :=
  ⟨.ok (some []), fun _ v => .ok v,
   fun _ => .ok none, fun _ => .ok none, fun _ => .ok none, fun _ => .ok none⟩

/-- C1, counterexample.  The claim says every upstream call of the cycle runs
under the 15-second deadline, so refresh resolves whenever an upstream never
responds.  In this environment the listing responds but the per-vehicle status
update never does; the wait_for wraps only the listing call, so the refresh
never resolves. -/
theorem c1_counterexample :
    async_get_vehicle_data hangUpdateEnv true = .hang
    ∧ ∀ m, async_get_vehicle_data hangUpdateEnv true ≠ .failed m := by
  refine ⟨rfl, ?_⟩
  intro m hm
  rw [show async_get_vehicle_data hangUpdateEnv true = .hang from rfl] at hm
  exact RefreshOutcome.noConfusion hm

/-- C1, amended.  Only the vehicle-listing call runs under the 15-second
deadline: whenever the listing call never responds, the refresh resolves with
the retryable "API too slow" failure. -/
theorem c1_amended_listing_timeout (env : Env) (mv : Bool)
    (h : env.get_vehicles = .hang) :
    async_get_vehicle_data env mv = .failed api_too_slow_message := by
  unfold async_get_vehicle_data runBody
  rw [h]
  rfl

/-- C1, witness for the amended theorem at a concrete hanging listing. -/
theorem c1_amended_listing_timeout_witness :
    async_get_vehicle_data hangListingEnv true = .failed api_too_slow_message :=
  c1_amended_listing_timeout hangListingEnv true rfl

/-- C2.  When the try-block body of a refresh cycle raises a Silent-tier error
(authentication failure, internal error, or validation failure), the refresh
returns None, raises no UpdateFailed, and the previously published CycleResult
remains the one being served. -/
theorem c2_silent_errors_yield_no_result (env : Env) (mv : Bool) (e : UpstreamErr)
    (prev : Option (List VehicleData)) (h : runBody env mv = .err e)
    (hsilent : e = .loginError ∨ e = .internalError ∨ e = .validationError) :
    async_get_vehicle_data env mv = .result none
    ∧ (∀ m, async_get_vehicle_data env mv ≠ .failed m)
    ∧ publish prev (async_get_vehicle_data env mv) = prev := by
  have hres : async_get_vehicle_data env mv = .result none := by
    unfold async_get_vehicle_data
    rw [h]
    rcases hsilent with h1 | h1 | h1 <;> subst h1 <;> rfl
  refine ⟨hres, ?_, ?_⟩
  · intro m hm
    rw [hres] at hm
    exact RefreshOutcome.noConfusion hm
  · rw [hres]
    rfl

/-- C2, witness at a concrete authentication failure during refresh. -/
theorem c2_silent_errors_yield_no_result_witness :
    async_get_vehicle_data loginErrEnv true = .result none
    ∧ publish (some []) (async_get_vehicle_data loginErrEnv true) = some [] :=
  ⟨(c2_silent_errors_yield_no_result loginErrEnv true .loginError (some []) rfl
      (Or.inl rfl)).1,
   (c2_silent_errors_yield_no_result loginErrEnv true .loginError (some []) rfl
      (Or.inl rfl)).2.2⟩

/-- C3.  The refresh raises UpdateFailed exactly for the Retryable-tier error
kinds, and with the specified message in each case: a general API error keeps
its original message, a connect timeout gets the fixed connection message, and
cancellation, overall timeout, or read timeout get the fixed "API too slow"
message. -/
theorem c3_retryable_error_mapping (env : Env) (mv : Bool) (e : UpstreamErr)
    (h : runBody env mv = .err e) :
    ((∃ m, async_get_vehicle_data env mv = .failed m) ↔ e.isRetryable = true)
    ∧ (∀ m, e = .apiError m → async_get_vehicle_data env mv = .failed m)
    ∧ (e = .connectTimeout →
        async_get_vehicle_data env mv = .failed connect_failed_message)
    ∧ ((e = .cancelled ∨ e = .timeoutError ∨ e = .readTimeout) →
        async_get_vehicle_data env mv = .failed api_too_slow_message) := by
  have hout : async_get_vehicle_data env mv = handleErr e := by
    unfold async_get_vehicle_data
    rw [h]
  rw [hout]
  cases e <;> simp [handleErr, UpstreamErr.isRetryable]

/-- C3, witness at a concrete general API error during refresh. -/
theorem c3_retryable_error_mapping_witness :
    async_get_vehicle_data apiErrEnv true = .failed "boom" :=
  (c3_retryable_error_mapping apiErrEnv true (.apiError "boom") rfl).2.1 "boom" rfl

/-- All four capability flags set. -/
def allCaps : ExtendedCapabilities := ⟨true, true, true, true⟩

/-- A vehicle whose capability flags are all true. -/
def allCapsVehicle : Vehicle := ⟨some "JTDKB20U", ⟨some allCaps⟩, none⟩

/-- C4, counterexample.  For an all-capabilities vehicle the projection yields
eight non-statistics descriptors (vin, odometer, fuel level, fuel range,
battery level, battery range, battery range with climate, total range), not
the nine the claim states, plus the four statistics descriptors. -/
theorem c4_counterexample :
    ((projectVehicle allCapsVehicle).filter (fun k => !k.isStatistics)).length ≠ 9
    ∧ ((projectVehicle allCapsVehicle).filter (fun k => !k.isStatistics)).length = 8
    ∧ (projectVehicle allCapsVehicle).length = 12 := by
  decide

/-- C4, amended.  For a vehicle whose capability flags are all true, the
projection produces exactly the eight non-statistics descriptors plus the four
statistics descriptors, in source order, and no others. -/
theorem c4_amended_projection_all_caps (v : Vehicle)
    (h : v.vehicle_info.extended_capabilities = some ⟨true, true, true, true⟩) :
    projectVehicle v =
      [.vin, .odometer, .fuel_level, .fuel_range, .battery_level, .battery_range,
       .battery_range_ac, .total_range, .current_day_statistics,
       .current_week_statistics, .current_month_statistics,
       .current_year_statistics] := by
  simp [projectVehicle, capabilities_descriptions, capFlag, h]

/-- C4, witness for the amended theorem at a concrete all-capabilities
vehicle. -/
theorem c4_amended_projection_all_caps_witness :
    projectVehicle allCapsVehicle =
      [.vin, .odometer, .fuel_level, .fuel_range, .battery_level, .battery_range,
       .battery_range_ac, .total_range, .current_day_statistics,
       .current_week_statistics, .current_month_statistics,
       .current_year_statistics] :=
  c4_amended_projection_all_caps allCapsVehicle rfl

/-- C5, counterexample.  When the listing call responds with None (no list at
all), the refresh returns None — no new data — rather than the successful
empty CycleResult the claim states. -/
theorem c5_counterexample :
    async_get_vehicle_data absentListingEnv true = .result none
    ∧ async_get_vehicle_data absentListingEnv true ≠ .result (some []) := by
  refine ⟨rfl, ?_⟩
  intro hm
  rw [show async_get_vehicle_data absentListingEnv true = .result none from rfl] at hm
  simp at hm

/-- C5, amended.  An empty listing yields the successful empty CycleResult,
while an absent (None) listing yields no result at all (None), the same
consumer-visible outcome as a Silent-tier no-op tick. -/
theorem c5_amended_empty_vs_absent_listing (env : Env) (mv : Bool) :
    (env.get_vehicles = .ok (some []) →
      async_get_vehicle_data env mv = .result (some []))
    ∧ (env.get_vehicles = .ok none →
      async_get_vehicle_data env mv = .result none) := by
  constructor <;> intro h <;> unfold async_get_vehicle_data runBody <;> rw [h] <;> rfl

/-- C5, witness for the amended theorem at a concrete empty and a concrete
absent listing. -/
theorem c5_amended_empty_vs_absent_listing_witness :
    async_get_vehicle_data emptyListingEnv true = .result (some [])
    ∧ async_get_vehicle_data absentListingEnv false = .result none :=
  ⟨(c5_amended_empty_vs_absent_listing emptyListingEnv true).1 rfl,
   (c5_amended_empty_vs_absent_listing absentListingEnv false).2 rfl⟩

/-- Shape of a successfully processed vehicle: the status update succeeded and
produced the snapshot's vehicle, the statistics entry is present exactly when
the updated vehicle's vin is present, and the metric flag is carried over. -/
theorem processVehicle_ok_spec (env : Env) (mv : Bool) (i : Nat) (v : Vehicle)
    (d : VehicleData) (hd : processVehicle env mv i v = .ok d) :
    env.update i v = .ok d.data
    ∧ (d.statistics ≠ none ↔ d.data.vin ≠ none)
    ∧ d.metric_values = mv := by
  unfold processVehicle at hd
  split at hd
  · exact CallResult.noConfusion hd
  · exact CallResult.noConfusion hd
  · rename_i v2 hu
    split at hd
    · rename_i hv
      cases hd
      exact ⟨hu, by simp [hv], rfl⟩
    · rename_i s hv
      split at hd
      · exact CallResult.noConfusion hd
      · exact CallResult.noConfusion hd
      · rename_i q hg
        cases hd
        exact ⟨hu, by simp [hv], rfl⟩

/-- Shape of a successful vehicle loop: one snapshot per listed vehicle, in
listing order, each from a successful status update, with an absent statistics
bundle whenever the updated vehicle has no vin. -/
theorem processAll_ok_spec (env : Env) (mv : Bool) :
    ∀ (vs : List Vehicle) (i : Nat) (l : List VehicleData),
      processAll env mv i vs = .ok l →
      l.length = vs.length
      ∧ ∀ j v, vs.get? j = some v →
          ∃ v2 d, l.get? j = some d ∧ env.update (i + j) v = .ok v2
            ∧ d.data = v2 ∧ (v2.vin = none → d.statistics = none) := by
  intro vs
  induction vs with
  | nil =>
    intro i l hl
    unfold processAll at hl
    cases hl
    refine ⟨rfl, ?_⟩
    intro j v hj
    simp at hj
  | cons v rest ih =>
    intro i l hl
    unfold processAll at hl
    split at hl
    · exact CallResult.noConfusion hl
    · exact CallResult.noConfusion hl
    · rename_i d hd
      split at hl
      · exact CallResult.noConfusion hl
      · exact CallResult.noConfusion hl
      · rename_i l2 hl2
        cases hl
        obtain ⟨hlen, hspec⟩ := ih (i + 1) l2 hl2
        constructor
        · simp [hlen]
        · intro j w hj
          cases j with
          | zero =>
            simp at hj
            subst hj
            obtain ⟨hu, hiff, hm⟩ := processVehicle_ok_spec env mv i v d hd
            refine ⟨d.data, d, rfl, ?_, rfl, ?_⟩
            · simpa using hu
            · intro hv
              cases hstat : d.statistics with
              | none => rfl
              | some st =>
                exact absurd hv (hiff.mp (by simp [hstat]))
          | succ j =>
            simp only [List.get?] at hj
            obtain ⟨v2, d2, hg, hu, hd2, hs⟩ := hspec j w hj
            refine ⟨v2, d2, ?_, ?_, hd2, hs⟩
            · simpa using hg
            · have harith : i + 1 + j = i + (j + 1) := by omega
              rw [harith] at hu
              exact hu

/-- A vehicle whose vin is the empty string. -/
def emptyVinVehicle : Vehicle := ⟨some "", ⟨none⟩, none⟩

/-- Environment listing one empty-vin vehicle, with all statistics calls
responding with a summary. -/
def emptyVinEnv : Env :=
  ⟨.ok (some [emptyVinVehicle]), fun _ w => .ok w,
   fun _ => .ok (some sampleSummary), fun _ => .ok (some sampleSummary),
   fun _ => .ok (some sampleSummary), fun _ => .ok (some sampleSummary)⟩

/-- The statistics bundle produced for the empty-vin vehicle. -/
def emptyVinStats : StatisticsData :=
  ⟨some sampleSummary, some sampleSummary, some sampleSummary, some sampleSummary⟩

/-- C6, counterexample.  The claim says no statistics fetch is issued and the
bundle stays absent for a vehicle whose identifier is empty; the code only
checks the identifier against None, so an empty-string vin still gets all four
statistics fetched and a present bundle. -/
theorem c6_counterexample :
    emptyVinVehicle.vin = some ""
    ∧ async_get_vehicle_data emptyVinEnv true
      = .result (some [⟨emptyVinVehicle, some emptyVinStats, true⟩])
    ∧ some emptyVinStats ≠ (none : Option StatisticsData) := by
  refine ⟨rfl, rfl, ?_⟩
  simp

/-- C6, amended.  The four statistics fetches are attempted exactly when the
updated vehicle's identifier is present (not None): an absent identifier skips
the fetch and leaves the bundle absent, while any present identifier — the
empty string included — triggers it, so a successful snapshot carries a bundle
exactly when its vehicle carries an identifier. -/
theorem c6_amended_statistics_gated_by_vin_presence (env : Env) (mv : Bool)
    (i : Nat) (v : Vehicle) :
    (∀ v2, env.update i v = .ok v2 → v2.vin = none →
      processVehicle env mv i v = .ok ⟨v2, none, mv⟩)
    ∧ (∀ d, processVehicle env mv i v = .ok d →
      (d.statistics ≠ none ↔ d.data.vin ≠ none)) := by
  constructor
  · intro v2 hu hv
    simp [processVehicle, hu, hv]
  · intro d hd
    exact (processVehicle_ok_spec env mv i v d hd).2.1

/-- C6, witness for the amended theorem at a concrete vin-less vehicle. -/
theorem c6_amended_statistics_gated_by_vin_presence_witness :
    processVehicle absentListingEnv true 0 ⟨none, ⟨none⟩, none⟩
      = .ok ⟨⟨none, ⟨none⟩, none⟩, none, true⟩ :=
  (c6_amended_statistics_gated_by_vin_presence absentListingEnv true 0
      ⟨none, ⟨none⟩, none⟩).1 ⟨none, ⟨none⟩, none⟩ rfl rfl

/-- Statistics bundle whose day summary has distance zero and whose other
periods are absent. -/
def zeroDayBundle : StatisticsData := ⟨some ⟨some 0⟩, none, none, none⟩

/-- C7, counterexample.  With the week entry absent and the day entry present
with a recorded distance of exactly zero, the day descriptor's value function
returns absence instead of the rounded distance 0 the claim states. -/
theorem c7_counterexample :
    zeroDayBundle.week = none
    ∧ zeroDayBundle.day = some ⟨some 0⟩
    ∧ statistics_native_value (some zeroDayBundle) .day = .ok none
    ∧ (Except.ok none : Except PyErr (Option ℚ)) ≠ Except.ok (some (round1 0)) := by
  refine ⟨rfl, rfl, rfl, ?_⟩
  intro h
  exact Option.noConfusion (Except.ok.inj h)

/-- C7, amended.  For a bundle with week absent and day present, the week
descriptor's value function returns absence, and the day descriptor's value
function returns the day distance rounded to one decimal place when that
distance is present and non-zero, and absence when it is absent or zero. -/
theorem c7_amended_day_week_values (b : StatisticsData) (s : Summary)
    (hw : b.week = none) (hd : b.day = some s) :
    statistics_native_value (some b) .week = .ok none
    ∧ (∀ q, s.distance = some q → q ≠ 0 →
        statistics_native_value (some b) .day = .ok (some (round1 q)))
    ∧ ((s.distance = none ∨ s.distance = some 0) →
        statistics_native_value (some b) .day = .ok none) := by
  refine ⟨?_, ?_, ?_⟩
  · simp [statistics_native_value, StatisticsData.get, hw]
  · intro q hq hq0
    simp [statistics_native_value, StatisticsData.get, hd, hq, hq0]
  · intro hcase
    rcases hcase with h1 | h1 <;>
      simp [statistics_native_value, StatisticsData.get, hd, h1]

/-- Statistics bundle with a positive day distance and week absent. -/
def dayOnlyBundle : StatisticsData := ⟨some ⟨some (3/2)⟩, none, none, none⟩

/-- C7, witness for the amended theorem at a concrete day-only bundle. -/
theorem c7_amended_day_week_values_witness :
    statistics_native_value (some dayOnlyBundle) .week = .ok none
    ∧ statistics_native_value (some dayOnlyBundle) .day
      = .ok (some (round1 (3/2))) :=
  ⟨(c7_amended_day_week_values dayOnlyBundle ⟨some (3/2)⟩ rfl rfl).1,
   (c7_amended_day_week_values dayOnlyBundle ⟨some (3/2)⟩ rfl rfl).2.1 (3/2) rfl
     (by norm_num)⟩

/-- attributes_fn shared by the eight non-VIN dashboard descriptors: it
ignores the vehicle and returns absence. -/
def no_attributes_fn (_vehicle : Vehicle) : Option StatAttrs := none

/-- C8, counterexample.  The statistics sensors subscript the vehicle's
Optional statistics bundle before any guard, so when the bundle itself is
missing the value extraction raises TypeError instead of returning absence. -/
theorem c8_counterexample :
    statistics_native_value none .day = .error .typeError
    ∧ statistics_native_value none .day ≠ .ok none
    ∧ statistics_extra_attributes none sampleInfo .day = .error .typeError := by
  refine ⟨rfl, ?_, rfl⟩
  intro h
  rw [show statistics_native_value none .day = .error .typeError from rfl] at h
  exact Except.noConfusion h

/-- C8, amended.  Every non-statistics descriptor's value and attributes
function is total over a missing dashboard, returning absence without raising;
the statistics value and attributes functions are total over a missing period
summary inside a present bundle, but raise TypeError when the whole bundle is
absent. -/
theorem c8_amended_totality (v : Vehicle) (hdash : v.dashboard = none) :
    (vin_value_fn v = v.vin
    ∧ vin_attributes_fn v = some ⟨v.vehicle_info⟩
    ∧ no_attributes_fn v = none
    ∧ odometer_value_fn v = none
    ∧ fuel_level_value_fn v = none
    ∧ fuel_range_value_fn v = none
    ∧ battery_level_value_fn v = none
    ∧ battery_range_value_fn v = none
    ∧ battery_range_ac_value_fn v = none
    ∧ total_range_value_fn v = none)
    ∧ (∀ st p, ∃ r, statistics_native_value (some st) p = .ok r)
    ∧ (∀ st p info, ∃ r, statistics_extra_attributes (some st) info p = .ok r)
    ∧ (∀ p, statistics_native_value none p = .error .typeError) := by
  refine ⟨?_, ?_, ?_, ?_⟩
  · simp [vin_value_fn, vin_attributes_fn, no_attributes_fn, odometer_value_fn,
      fuel_level_value_fn, fuel_range_value_fn, battery_level_value_fn,
      battery_range_value_fn, battery_range_ac_value_fn, total_range_value_fn,
      hdash]
  · intro st p
    cases hsp : st.get p with
    | none => exact ⟨none, by simp [statistics_native_value, hsp]⟩
    | some data =>
      cases hdist : data.distance with
      | none => exact ⟨none, by simp [statistics_native_value, hsp, hdist]⟩
      | some q =>
        by_cases h0 : q = 0
        · exact ⟨none, by simp [statistics_native_value, hsp, hdist, h0]⟩
        · exact ⟨some (round1 q),
            by simp [statistics_native_value, hsp, hdist, h0]⟩
  · intro st p info
    cases hsp : st.get p with
    | none => exact ⟨none, by simp [statistics_extra_attributes, hsp]⟩
    | some data =>
      exact ⟨some ⟨data, info⟩, by simp [statistics_extra_attributes, hsp]⟩
  · intro p
    rfl

/-- C8, witness for the amended theorem at a concrete dashboard-less
vehicle. -/
theorem c8_amended_totality_witness :
    odometer_value_fn sampleVehicle = none
    ∧ total_range_value_fn sampleVehicle = none :=
  ⟨((c8_amended_totality sampleVehicle rfl).1).2.2.2.1,
   ((c8_amended_totality sampleVehicle rfl).1).2.2.2.2.2.2.2.2.2⟩

/-- C9.  A successful cycle contains exactly one snapshot per listed vehicle,
in listing order; each snapshot's vehicle comes from that vehicle's successful
status update, and a snapshot whose vehicle has no identifier carries an
absent statistics bundle while still appearing in the result. -/
theorem c9_snapshot_per_listed_vehicle (env : Env) (mv : Bool)
    (vs : List Vehicle) (l : List VehicleData)
    (hv : env.get_vehicles = .ok (some vs))
    (hr : async_get_vehicle_data env mv = .result (some l)) :
    l.length = vs.length
    ∧ ∀ j v, vs.get? j = some v →
        ∃ v2 d, l.get? j = some d ∧ env.update j v = .ok v2
          ∧ d.data = v2 ∧ (v2.vin = none → d.statistics = none) := by
  have hout : runBody env mv
      = (match processAll env mv 0 vs with
        | .err e => .err e
        | .hang => .hang
        | .ok l2 => .ok (some l2)) := by
    simp only [runBody, hv, wait_for]
  unfold async_get_vehicle_data at hr
  rw [hout] at hr
  cases hp : processAll env mv 0 vs with
  | err e =>
    rw [hp] at hr
    cases e <;> simp [handleErr] at hr
  | hang =>
    rw [hp] at hr
    simp at hr
  | ok l2 =>
    rw [hp] at hr
    simp at hr
    subst hr
    obtain ⟨hlen, hspec⟩ := processAll_ok_spec env mv vs 0 l2 hp
    refine ⟨hlen, ?_⟩
    intro j v hj
    obtain ⟨v2, d, hg, hu, hd2, hs⟩ := hspec j v hj
    refine ⟨v2, d, hg, ?_, hd2, hs⟩
    simpa using hu

/-- A listed vehicle with an identifier. -/
def v9a : Vehicle := ⟨some "VINA", ⟨none⟩, none⟩

/-- A listed vehicle without an identifier. -/
def v9b : Vehicle := ⟨none, ⟨none⟩, none⟩

/-- Environment listing both sample vehicles, with all calls succeeding. -/
def env9 : Env :=
  ⟨.ok (some [v9a, v9b]), fun _ w => .ok w,
   fun _ => .ok none, fun _ => .ok none, fun _ => .ok none, fun _ => .ok none⟩

/-- The cycle result produced by env9. -/
def expected9 : List VehicleData :=
  [⟨v9a, some ⟨none, none, none, none⟩, true⟩, ⟨v9b, none, true⟩]

/-- C9, witness at a concrete two-vehicle listing where the second vehicle has
no identifier. -/
theorem c9_snapshot_per_listed_vehicle_witness :
    expected9.length = [v9a, v9b].length :=
  (c9_snapshot_per_listed_vehicle env9 true [v9a, v9b] expected9 rfl rfl).1

/-- C10.  When a period's summary is present but its distance is zero or
absent, the statistics value function reports absence, identically to having
no data for that period. -/
theorem c10_zero_or_absent_distance_reported_absent (b : StatisticsData)
    (p : Period) (s : Summary) (hb : b.get p = some s)
    (hd : s.distance = none ∨ s.distance = some 0) :
    statistics_native_value (some b) p = .ok none := by
  rcases hd with h1 | h1 <;> simp [statistics_native_value, hb, h1]

/-- Statistics bundle whose month summary records distance zero. -/
def zeroMonthBundle : StatisticsData := ⟨none, none, some ⟨some 0⟩, none⟩

/-- C10, witness at a concrete zero-distance month summary. -/
theorem c10_zero_or_absent_distance_reported_absent_witness :
    statistics_native_value (some zeroMonthBundle) .month = .ok none :=
  c10_zero_or_absent_distance_reported_absent zeroMonthBundle .month ⟨some 0⟩
    rfl (Or.inr rfl)

end Toyota
